import Mathlib

/-!
Verification of the cache / invalidation / dashboard-statistics core of the
Ecom-backend-v2 repository.

The embedding follows the TypeScript sources:
  * `src/controllers/statsControllers.ts` — dashboard stats handler and the
    product read/write handlers (read-through caching over `node-cache`);
  * `src/controllers/userControllers.ts` — user creation handler;
  * `src/middlewares/error.ts` — `TryCatch` error propagation.
The cache utility (`src/utils/nodeCache.ts`, exporting `nodeCache` and
`invalidateCache`) and `src/utils/calculatePercentage.ts` are not among the
source files; they are modelled from the specification, as marked on the
corresponding definitions.

Cached values are stored by the code as JSON strings (`JSON.stringify` on
write, `JSON.parse` on read); since the specification requires the encoding to
round-trip the cached object exactly, serialized payloads are modelled by the
inductive `CacheVal`, whose constructors are injective (exact round-trip).
-/

namespace Ecom

/-- A calendar instant, modelling a JavaScript `Date`: year, zero-based month
(0 = January), one-based day of month, and milliseconds within the day.
`new Date(y, m, d)` sets the time-of-day components to zero. -/
structure Instant where
  year : Int
  month : Nat
  day : Nat
  ms : Nat
deriving DecidableEq

/-- The epoch-style ordering key of an instant.  JavaScript `Date` values (and
MongoDB BSON dates) compare by their millisecond timestamp, which over valid
dates is strictly monotone in the lexicographic order of
(year, month, day, time-of-day); this stamp realizes that order. -/
def Instant.stamp (t : Instant) : Int :=
  ((t.year * 12 + t.month) * 32 + t.day) * 86400000 + t.ms

/-- `a` is before-or-equal `b` (the `$lte` / `<=` comparison on dates). -/
def Instant.le (a b : Instant) : Bool := a.stamp ≤ b.stamp

/-- `a` is strictly before `b` (the `$lt` / `<` comparison on dates). -/
def Instant.lt (a b : Instant) : Bool := a.stamp < b.stamp

/-- Gregorian leap-year test, as used by JavaScript `Date` month arithmetic. -/
def isLeap (y : Int) : Bool :=
  (y % 4 == 0 && y % 100 != 0) || (y % 400 == 0)

/-- Number of days of zero-based month `m` of year `y`. -/
def daysInMonth (y : Int) (m : Nat) : Nat :=
  if m = 1 then (if isLeap y then 29 else 28)
  else if m = 3 ∨ m = 5 ∨ m = 8 ∨ m = 10 then 30
  else 31

/-- Normalization of a possibly out-of-range zero-based month index, as
performed by the JavaScript `Date(year, month, …)` constructor: month −1 rolls
over to December of the previous year, month 12 to January of the next. -/
def normYM (y m : Int) : Int × Nat :=
  (y + m / 12, (m % 12).toNat)

/-- The JavaScript `new Date(y, m, d)` constructor for the argument shapes the
stats handler uses (`d = 1` and `d = 0`): the month is normalized, `d = 0`
denotes the last day of the month preceding the normalized month, and the
time-of-day components are zero. -/
def mkDate (y m d : Int) : Instant :=
  let ym := normYM y m
  if d = 0 then
    let pm := normYM ym.1 ((ym.2 : Int) - 1)
    ⟨pm.1, pm.2, daysInMonth pm.1 pm.2, 0⟩
  else
    ⟨ym.1, ym.2, d.toNat, 0⟩

/-- A product document (`productModel`): fields used by the handlers. -/
structure ProductDoc where
  _id : String
  name : String
  category : String
  price : ℚ
  stock : ℚ
  image : Option String
  createdAt : Instant
deriving DecidableEq

/-- A user document: fields used by the handlers. -/
structure UserDoc where
  _id : String
  name : String
  email : String
  createdAt : Instant
deriving DecidableEq

/-- An order document; `total` is optional (`order.total || 0` in the code). -/
structure OrderDoc where
  _id : String
  total : Option ℚ
  createdAt : Instant
deriving DecidableEq

/-- The document store: the three entity collections. -/
structure DB where
  products : List ProductDoc
  users : List UserDoc
  orders : List OrderDoc
deriving DecidableEq

/-- Month-over-month percentage deltas of the dashboard snapshot. -/
structure StatsPercentage where
  revenue : ℚ
  product : ℚ
  user : ℚ
  order : ℚ
deriving DecidableEq

/-- Totals of the dashboard snapshot. -/
structure StatsCount where
  revenue : ℚ
  product : Nat
  user : Nat
  order : Nat
deriving DecidableEq

/-- The dashboard statistics snapshot (`stats = {percentage, count}`). -/
structure StatsSnapshot where
  percentage : StatsPercentage
  count : StatsCount
deriving DecidableEq

/-- A serialized cache payload.  The code stores `JSON.stringify` of the
payload and decodes with `JSON.parse`; as the encoding round-trips exactly,
payloads are modelled by injective constructors.  `prod none` models the
string `"null"` stored for a missing single product. -/
inductive CacheVal where
  | products (ps : List ProductDoc)
  | categories (cs : List String)
  | prod (p : Option ProductDoc)
  | stats (s : StatsSnapshot)
deriving DecidableEq

/-- The state of the `node-cache` store: a mapping from string keys to
serialized payloads (no TTL is used by the code). -/
def CacheState : Type := String → Option CacheVal

/-- The empty cache (process start). -/
def CacheState.empty : CacheState := fun _ => none

/-- `nodeCache.has(key)`. -/
def CacheState.has (c : CacheState) (k : String) : Bool := (c k).isSome

/-- `nodeCache.get(key)`. -/
def CacheState.get (c : CacheState) (k : String) : Option CacheVal := c k

/-- `nodeCache.set(key, value)`. -/
def CacheState.set (c : CacheState) (k : String) (v : CacheVal) : CacheState :=
  fun k2 => if k2 = k then some v else c k2

/-- `nodeCache.del(key)`: removes the entry if present, no-op if absent. -/
def CacheState.del (c : CacheState) (k : String) : CacheState :=
  fun k2 => if k2 = k then none else c k2

/-- The entity kind named by an invalidation request. -/
inductive EntityKind where
  | Product
  | User
  | Order
deriving DecidableEq

/-- An invalidation request: which entity kind changed and, optionally, which
identity (`invalidateCache({product: true, productId})` at the call sites). -/
structure InvalidationRequest where
  entityKind : EntityKind
  entityId : Option String
deriving DecidableEq

/-- Modelled from the spec: `invalidateCache` of `src/utils/nodeCache.ts` is
not among the source files (only its call sites are).  Per the invalidation
policy table of the specification (§4.2): a Product write purges
`latestProducts`, `categories`, `admin-products` and `admin-stats`, plus
`product-<entityId>` when an id is present; User and Order writes purge
`admin-stats`. -/
def invalidateCache (req : InvalidationRequest) (c : CacheState) : CacheState :=
  match req.entityKind with
  | .Product =>
      let c1 := ((((c.del "latestProducts").del "categories").del
        "admin-products").del "admin-stats")
      match req.entityId with
      | some id => c1.del ("product-" ++ id)
      | none => c1
  | .User => c.del "admin-stats"
  | .Order => c.del "admin-stats"

/-- Rounding to two decimal places (the specification's recommended fixed
decimal precision). -/
def roundTo2 (x : ℚ) : ℚ := (round (x * 100) : ℚ) / 100

/-- Modelled from the spec: `calculatePercentage` of
`src/utils/calculatePercentage.ts` is not among the source files (only the
stats controller's import of it is).  Per §4.4: a zero baseline returns
`current * 100`; otherwise `((current - previous) / previous) * 100`, rounded
to the fixed two-decimal precision. -/
def calculatePercentage (current previous : ℚ) : ℚ :=
  if previous = 0 then current * 100
  else roundTo2 (((current - previous) / previous) * 100)

/-- A time window `{start, end}` as built by the stats handler. -/
structure TimeWindow where
  start : Instant
  stop : Instant
deriving DecidableEq

/-- `thisMonth` of `handleGetDashboardStats`:
`{start: new Date(today.getFullYear(), today.getMonth(), 1), end: today}`. -/
def thisMonthWindow (today : Instant) : TimeWindow :=
  ⟨mkDate today.year today.month 1, today⟩

/-- `lastMonth` of `handleGetDashboardStats`:
`{start: new Date(y, m - 1, 1), end: new Date(y, m, 0)}`. -/
def lastMonthWindow (today : Instant) : TimeWindow :=
  ⟨mkDate today.year ((today.month : Int) - 1) 1,
   mkDate today.year today.month 0⟩

/-- Insert a product into a list sorted by descending `createdAt` stamp. -/
def insertDesc (p : ProductDoc) : List ProductDoc → List ProductDoc
  | [] => [p]
  | q :: qs =>
      if Instant.le q.createdAt p.createdAt then p :: q :: qs
      else q :: insertDesc p qs

/-- `.sort({createdAt: -1})`: the collection sorted newest-first. -/
def sortDesc (ps : List ProductDoc) : List ProductDoc :=
  ps.foldr insertDesc []

/-- `Product.find({createdAt: {$gt: w.start, $lte: w.end}}).sort({createdAt: -1})`
— note the exclusive `$gt` lower bound used for products. -/
def productsInWindow (w : TimeWindow) (db : DB) : List ProductDoc :=
  sortDesc (db.products.filter
    (fun p => Instant.lt w.start p.createdAt && Instant.le p.createdAt w.stop))

/-- `UserModel.find({createdAt: {$gte: w.start, $lte: w.end}})`
— inclusive `$gte` lower bound for users. -/
def usersInWindow (w : TimeWindow) (db : DB) : List UserDoc :=
  db.users.filter
    (fun u => Instant.le w.start u.createdAt && Instant.le u.createdAt w.stop)

/-- `Order.find({createdAt: {$gte: w.start, $lte: w.end}})`
— inclusive `$gte` lower bound for orders. -/
def ordersInWindow (w : TimeWindow) (db : DB) : List OrderDoc :=
  db.orders.filter
    (fun o => Instant.le w.start o.createdAt && Instant.le o.createdAt w.stop)

/-- `orders.reduce((total, order) => total + (order.total || 0), 0)`:
a missing / undefined `total` contributes `0`. -/
def sumTotals (os : List OrderDoc) : ℚ :=
  os.foldl (fun acc o => acc + o.total.getD 0) 0

/-- The nine query results the stats handler awaits with `Promise.all`. -/
structure QueryData where
  thisMonthProducts : List ProductDoc
  lastMonthProducts : List ProductDoc
  thisMonthUsers : List UserDoc
  lastMonthUsers : List UserDoc
  thisMonthOrders : List OrderDoc
  lastMonthOrders : List OrderDoc
  totalProducts : Nat
  totalUsers : Nat
  allOrder : List OrderDoc
deriving DecidableEq

/-- The nine queries of `handleGetDashboardStats`, evaluated against the
document store for the two windows derived from `today`. -/
def statsQueries (today : Instant) (db : DB) : QueryData :=
  { thisMonthProducts := productsInWindow (thisMonthWindow today) db
    lastMonthProducts := productsInWindow (lastMonthWindow today) db
    thisMonthUsers := usersInWindow (thisMonthWindow today) db
    lastMonthUsers := usersInWindow (lastMonthWindow today) db
    thisMonthOrders := ordersInWindow (thisMonthWindow today) db
    lastMonthOrders := ordersInWindow (lastMonthWindow today) db
    totalProducts := db.products.length
    totalUsers := db.users.length
    allOrder := db.orders }

/-- Lines 96–143 of the stats controller: reduce the nine query results into
the snapshot (revenue sums, percentage deltas, totals). -/
def assembleStats (q : QueryData) : StatsSnapshot :=
  let thisMonthRevenue := sumTotals q.thisMonthOrders
  let lastMonthRevenue := sumTotals q.lastMonthOrders
  let percentage : StatsPercentage :=
    { revenue := calculatePercentage thisMonthRevenue lastMonthRevenue
      product := calculatePercentage q.thisMonthProducts.length q.lastMonthProducts.length
      user := calculatePercentage q.thisMonthUsers.length q.lastMonthUsers.length
      order := calculatePercentage q.thisMonthOrders.length q.lastMonthOrders.length }
  let revenue := sumTotals q.allOrder
  let count : StatsCount :=
    { revenue := revenue
      product := q.totalProducts
      user := q.totalUsers
      order := q.allOrder.length }
  { percentage := percentage, count := count }

/-- The miss-path computation of `handleGetDashboardStats`. -/
def computeStats (today : Instant) (db : DB) : StatsSnapshot :=
  assembleStats (statsQueries today db)

/-- Result of a read-through handler: the decoded payload, the cache state
after the call, and how many document-store round-trips the call issued. -/
structure ReadResult (α : Type) where
  payload : α
  cache : CacheState
  dbQueries : Nat

/-- `handleGetDashboardStats` (lines 15–152 of the stats controller): if
`admin-stats` is cached, parse and return it with no document-store access;
otherwise issue the nine queries, assemble the snapshot and return it.  The
source never calls `nodeCache.set` for `admin-stats`, so the cache state is
returned unchanged on both paths.  A hit on a payload of the wrong shape
cannot arise through the handlers (only this handler's key family is read);
it is mapped to the initial `stats = {}` placeholder value. -/
def handleGetDashboardStats (today : Instant) (db : DB) (c : CacheState) :
    ReadResult StatsSnapshot :=
  match c.get "admin-stats" with
  | some (.stats s) => ⟨s, c, 0⟩
  | some _ => ⟨⟨⟨0, 0, 0, 0⟩, ⟨0, 0, 0, 0⟩⟩, c, 0⟩
  | none => ⟨computeStats today db, c, 9⟩

/-- Whether an `Except` result is a success. -/
def exceptOk {ε α : Type} : Except ε α → Bool
  | .ok _ => true
  | .error _ => false

/-- The nine document-store queries of the stats handler as fallible
promises: each may resolve with its result or reject with an error. -/
structure FallibleQueries where
  thisMonthProducts : Except String (List ProductDoc)
  lastMonthProducts : Except String (List ProductDoc)
  thisMonthUsers : Except String (List UserDoc)
  lastMonthUsers : Except String (List UserDoc)
  thisMonthOrders : Except String (List OrderDoc)
  lastMonthOrders : Except String (List OrderDoc)
  totalProducts : Except String Nat
  totalUsers : Except String Nat
  allOrder : Except String (List OrderDoc)

/-- All nine queries resolved. -/
def FallibleQueries.allOk (f : FallibleQueries) : Bool :=
  exceptOk f.thisMonthProducts && exceptOk f.lastMonthProducts &&
  exceptOk f.thisMonthUsers && exceptOk f.lastMonthUsers &&
  exceptOk f.thisMonthOrders && exceptOk f.lastMonthOrders &&
  exceptOk f.totalProducts && exceptOk f.totalUsers && exceptOk f.allOrder

/-- `await Promise.all([...])` over the nine queries: resolves with all nine
results when every query resolves, rejects as soon as any query rejects (no
partial results are ever produced). -/
def promiseAll9 (f : FallibleQueries) : Except String QueryData := do
  let a ← f.thisMonthProducts
  let b ← f.lastMonthProducts
  let u1 ← f.thisMonthUsers
  let u2 ← f.lastMonthUsers
  let o1 ← f.thisMonthOrders
  let o2 ← f.lastMonthOrders
  let tp ← f.totalProducts
  let tu ← f.totalUsers
  let ao ← f.allOrder
  pure ⟨a, b, u1, u2, o1, o2, tp, tu, ao⟩

/-- `handleGetDashboardStats` with fallible queries, wrapped in `TryCatch`
(`src/middlewares/error.ts`): a rejected query makes `Promise.all` reject,
the `try`/`catch` forwards the error to the error middleware (`.error`), and
the handler returns without touching the cache.  As in the infallible
embedding, the source never stores the computed snapshot. -/
def handleGetDashboardStatsFallible (f : FallibleQueries) (c : CacheState) :
    Except String StatsSnapshot × CacheState :=
  match c.get "admin-stats" with
  | some (.stats s) => (.ok s, c)
  | some _ => (.ok ⟨⟨0, 0, 0, 0⟩, ⟨0, 0, 0, 0⟩⟩, c)
  | none =>
      match promiseAll9 f with
      | .error e => (.error e, c)
      | .ok q => (.ok (assembleStats q), c)

/-- Result of the single-product read handler: HTTP status, `success` flag,
decoded payload, cache state after the call, and document-store round-trips. -/
structure SingleProductResult where
  status : Nat
  success : Bool
  payload : Option ProductDoc
  cache : CacheState
  dbQueries : Nat

/-- `handleGetSingleProduct` (lines 308–329 of the product controller): on a
hit, parse the entry under `product-<id>` (possibly the serialized `null`);
on a miss, run `Product.findById`, cache `JSON.stringify(product)` — also
when the product is `null` — and answer 200/404 by the truthiness of
`product`.  A hit on a payload of the wrong shape cannot arise through the
handlers; it is mapped to the `null` decoding. -/
def handleGetSingleProduct (id : String) (db : DB) (c : CacheState) :
    SingleProductResult :=
  match c.get ("product-" ++ id) with
  | some (.prod p) => ⟨if p.isSome then 200 else 404, p.isSome, p, c, 0⟩
  | some _ => ⟨404, false, none, c, 0⟩
  | none =>
      let p := db.products.find? (fun q => q._id = id)
      ⟨if p.isSome then 200 else 404, p.isSome, p,
        c.set ("product-" ++ id) (.prod p), 1⟩

/-- `handleGetLatestProducts` (lines 235–255): read-through under
`latestProducts`; on a miss, query the five newest products and cache them. -/
def handleGetLatestProducts (db : DB) (c : CacheState) :
    ReadResult (List ProductDoc) :=
  match c.get "latestProducts" with
  | some (.products ps) => ⟨ps, c, 0⟩
  | some _ => ⟨[], c, 0⟩
  | none =>
      let ps := (sortDesc db.products).take 5
      ⟨ps, c.set "latestProducts" (.products ps), 1⟩

/-- `handleGetAllCategories` (lines 258–280): read-through under
`categories`; on a miss, `Product.distinct("category")` (the deduplicated
category values) is queried and cached. -/
def handleGetAllCategories (db : DB) (c : CacheState) :
    ReadResult (List String) :=
  match c.get "categories" with
  | some (.categories cs) => ⟨cs, c, 0⟩
  | some _ => ⟨[], c, 0⟩
  | none =>
      let cs := (db.products.map (fun p => p.category)).dedup
      ⟨cs, c.set "categories" (.categories cs), 1⟩

/-- `handleGetAllAdminProducts` (lines 284–304): read-through under
`admin-products`; on a miss, the full newest-first listing is queried and
cached. -/
def handleGetAllAdminProducts (db : DB) (c : CacheState) :
    ReadResult (List ProductDoc) :=
  match c.get "admin-products" with
  | some (.products ps) => ⟨ps, c, 0⟩
  | some _ => ⟨[], c, 0⟩
  | none =>
      let ps := sortDesc db.products
      ⟨ps, c.set "admin-products" (.products ps), 1⟩

/-- The request body of `handleNewUser`; the fields the embedded `UserDoc`
carries (image, dob and gender are presentation-only and not represented). -/
structure NewUserBody where
  _id : String
  name : String
  email : String
deriving DecidableEq

/-- Result of a write handler: HTTP status, the document store after the
write, and the cache state after the handler returns. -/
structure WriteResult where
  status : Nat
  db : DB
  cache : CacheState

/-- `handleNewUser` (`src/controllers/userControllers.ts`, lines 8–33): look
the user up by `_id`; if found, answer 200 without writing; otherwise create
the user (Mongoose stamps `createdAt` with the current time) and answer 201.
The handler contains no `invalidateCache` call, so the cache state is
returned unchanged on both paths. -/
def handleNewUser (now : Instant) (body : NewUserBody) (db : DB)
    (c : CacheState) : WriteResult :=
  match db.users.find? (fun u => u._id = body._id) with
  | some _ => ⟨200, db, c⟩
  | none =>
      ⟨201, { db with users := db.users ++ [⟨body._id, body.name, body.email, now⟩] }, c⟩

/-- The request body of `handleNewProduct`. -/
structure NewProductBody where
  name : String
  category : String
  price : ℚ
  stock : ℚ
  image : Option String
deriving DecidableEq

/-- `handleNewProduct` (lines 183–231 of the product controller): create the
product (`newId` models the identifier the store generates, `now` the
`createdAt` timestamp), then `await invalidateCache({product: true})`, then
answer 201. -/
def handleNewProduct (now : Instant) (newId : String) (body : NewProductBody)
    (db : DB) (c : CacheState) : WriteResult :=
  let p : ProductDoc :=
    ⟨newId, body.name, body.category, body.price, body.stock, body.image, now⟩
  let db2 := { db with products := db.products ++ [p] }
  ⟨201, db2, invalidateCache ⟨.Product, none⟩ c⟩

/-! ### Helper lemmas -/

theorem productKey_injective {x y : String}
    (h : "product-" ++ y = "product-" ++ x) : y = x := by
  have hd := congrArg String.data h
  simp [String.data_append] at hd
  exact String.ext hd

theorem productKey_ne_latest (y : String) :
    "product-" ++ y ≠ "latestProducts" := by
  intro h
  have hd := congrArg String.data h
  simp [String.data_append] at hd

theorem productKey_ne_categories (y : String) :
    "product-" ++ y ≠ "categories" := by
  intro h
  have hd := congrArg String.data h
  simp [String.data_append] at hd

theorem productKey_ne_adminProducts (y : String) :
    "product-" ++ y ≠ "admin-products" := by
  intro h
  have hd := congrArg String.data h
  simp [String.data_append] at hd

theorem productKey_ne_adminStats (y : String) :
    "product-" ++ y ≠ "admin-stats" := by
  intro h
  have hd := congrArg String.data h
  simp [String.data_append] at hd

/-! ### C3 -/

/-- C3: for every Product invalidation request with no entity id and every
prior cache state, after `invalidateCache` returns, `has` is false for all
four of `latestProducts`, `categories`, `admin-products`, `admin-stats`. -/
theorem product_invalidation_purges_view_keys (c : CacheState) :
    (invalidateCache ⟨.Product, none⟩ c).has "latestProducts" = false ∧
    (invalidateCache ⟨.Product, none⟩ c).has "categories" = false ∧
    (invalidateCache ⟨.Product, none⟩ c).has "admin-products" = false ∧
    (invalidateCache ⟨.Product, none⟩ c).has "admin-stats" = false := by
  refine ⟨?_, ?_, ?_, ?_⟩ <;>
    simp [invalidateCache, CacheState.del, CacheState.has]

/-! ### C4 -/

/-- C4: a Product invalidation request with entity id `x` purges
`product-x`, and every other per-product entry `product-y` (`y ≠ x`) is left
exactly as it was — still present with the same value, or still absent. -/
theorem product_id_invalidation_frame (c : CacheState) (x : String) :
    (invalidateCache ⟨.Product, some x⟩ c).has ("product-" ++ x) = false ∧
    (∀ y : String, y ≠ x →
      (invalidateCache ⟨.Product, some x⟩ c).get ("product-" ++ y) =
        c.get ("product-" ++ y)) := by
  constructor
  · simp [invalidateCache, CacheState.del, CacheState.has]
  · intro y hyx
    have h1 : "product-" ++ y ≠ "product-" ++ x := fun h => hyx (productKey_injective h)
    simp [invalidateCache, CacheState.del, CacheState.get, h1,
      productKey_ne_latest y, productKey_ne_categories y,
      productKey_ne_adminProducts y, productKey_ne_adminStats y]

/-- A concrete cache state holding two per-product entries. -/
def twoProductCache : CacheState :=
  (CacheState.empty.set "product-1" (.prod none)).set "product-2" (.prod none)

theorem product_id_invalidation_frame_witness :
    (invalidateCache ⟨.Product, some "1"⟩ twoProductCache).has ("product-" ++ "1") = false ∧
    (invalidateCache ⟨.Product, some "1"⟩ twoProductCache).get ("product-" ++ "2") =
      twoProductCache.get ("product-" ++ "2") :=
  ⟨(product_id_invalidation_frame twoProductCache "1").1,
   (product_id_invalidation_frame twoProductCache "1").2 "2" (by decide)⟩

/-! ### C6 -/

/-- C6: `calculatePercentage` returns `current * 100` on a zero baseline and
the rounded relative delta `((current - previous) / previous) * 100`
otherwise; in particular `percentage(5,0) = 500`, `percentage(150,100) = 50`,
`percentage(50,100) = -50` and `percentage(0,0) = 0`. -/
theorem calculatePercentage_spec :
    (∀ current : ℚ, calculatePercentage current 0 = current * 100) ∧
    (∀ current previous : ℚ, previous ≠ 0 →
      calculatePercentage current previous =
        roundTo2 (((current - previous) / previous) * 100)) ∧
    calculatePercentage 5 0 = 500 ∧
    calculatePercentage 150 100 = 50 ∧
    calculatePercentage 50 100 = -50 ∧
    calculatePercentage 0 0 = 0 := by
  refine ⟨fun current => by simp [calculatePercentage],
    fun current previous h => by simp [calculatePercentage, h], ?_, ?_, ?_, ?_⟩
  · norm_num [calculatePercentage]
  · norm_num [calculatePercentage, roundTo2]
  · norm_num [calculatePercentage, roundTo2]
    rw [show ((-5000 : ℚ)) = ((-5000 : ℤ) : ℚ) by norm_num, round_intCast]
    norm_num
  · norm_num [calculatePercentage]

theorem calculatePercentage_spec_witness :
    calculatePercentage 7 0 = 7 * 100 ∧
    calculatePercentage 150 100 = roundTo2 (((150 - 100) / 100) * 100) :=
  ⟨calculatePercentage_spec.1 7,
   calculatePercentage_spec.2.1 150 100 (by norm_num)⟩

/-! ### C1 -/

/-- C1: contrary to the claimed read-through store, the source of
`handleGetDashboardStats` checks the cache and computes the snapshot on a
miss but never calls `nodeCache.set` for `admin-stats`: after a miss-path
call (nine queries issued) the key is still absent from the cache. -/
theorem dashboard_miss_path_does_not_store (today : Instant) (db : DB) :
    (handleGetDashboardStats today db CacheState.empty).dbQueries = 9 ∧
    (handleGetDashboardStats today db CacheState.empty).cache.has
      "admin-stats" = false :=
  ⟨rfl, rfl⟩

/-! ### C2 -/

/-- A cache state whose only entry is a dashboard snapshot under
`admin-stats`. -/
def statsCachedState : CacheState :=
  CacheState.empty.set "admin-stats" (.stats ⟨⟨0, 0, 0, 0⟩, ⟨0, 0, 0, 0⟩⟩)

/-- C2: `handleNewUser` contains no call to the invalidation coordinator —
the cache state is returned unchanged by every call; in particular, after a
successful user creation (status 201) with `admin-stats` cached, the key is
still present, contradicting the claimed purge. -/
theorem newUser_leaves_admin_stats_cached :
    (∀ (now : Instant) (body : NewUserBody) (db : DB) (c : CacheState),
      (handleNewUser now body db c).cache = c) ∧
    (handleNewUser ⟨2024, 2, 15, 0⟩ ⟨"u1", "Alice", "alice@example.com"⟩
        ⟨[], [], []⟩ statsCachedState).status = 201 ∧
    (handleNewUser ⟨2024, 2, 15, 0⟩ ⟨"u1", "Alice", "alice@example.com"⟩
        ⟨[], [], []⟩ statsCachedState).cache.has "admin-stats" = true := by
  refine ⟨fun now body db c => ?_, by decide, by decide⟩
  unfold handleNewUser
  cases db.users.find? (fun u => u._id = body._id) <;> rfl

/-! ### C5 -/

/-- C5: the dashboard-stats read path is not read-through idempotent — with
a fixed document store and no intervening invalidation, the first call issues
the nine queries and, because the snapshot is never stored, the second call
issues all nine again (the claim allows at most one query across both calls);
the two calls do return identical payloads. -/
theorem dashboard_double_read_queries_twice (today : Instant) (db : DB) :
    (handleGetDashboardStats today db CacheState.empty).dbQueries = 9 ∧
    (handleGetDashboardStats today db
        (handleGetDashboardStats today db CacheState.empty).cache).dbQueries = 9 ∧
    (handleGetDashboardStats today db
        (handleGetDashboardStats today db CacheState.empty).cache).payload =
      (handleGetDashboardStats today db CacheState.empty).payload :=
  ⟨rfl, rfl, rfl⟩

/-! ### C8 -/

theorem foldl_add_totals (os : List OrderDoc) (a : ℚ) :
    os.foldl (fun acc o => acc + o.total.getD 0) a =
      a + (os.map (fun o => o.total.getD 0)).sum := by
  induction os generalizing a with
  | nil => simp
  | cons o os ih => simp [List.foldl_cons, ih, add_assoc]

theorem sumTotals_eq_sum (os : List OrderDoc) :
    sumTotals os = (os.map (fun o => o.total.getD 0)).sum := by
  simpa [sumTotals] using foldl_add_totals os 0

/-- C8: `thisMonthRevenue` is the sum of the `total` field over the
this-month orders with a missing total contributing 0, `lastMonthRevenue`
analogously, the all-time revenue is the sum over all orders, and the
snapshot's count component is exactly
`{revenue, product: total products, user: total users, order: order count}`. -/
theorem dashboard_revenue_and_count (today : Instant) (db : DB) :
    (statsQueries today db).thisMonthOrders =
      ordersInWindow (thisMonthWindow today) db ∧
    (statsQueries today db).lastMonthOrders =
      ordersInWindow (lastMonthWindow today) db ∧
    sumTotals ((statsQueries today db).thisMonthOrders) =
      (((statsQueries today db).thisMonthOrders).map
        (fun o => o.total.getD 0)).sum ∧
    sumTotals ((statsQueries today db).lastMonthOrders) =
      (((statsQueries today db).lastMonthOrders).map
        (fun o => o.total.getD 0)).sum ∧
    (computeStats today db).count.revenue =
      (db.orders.map (fun o => o.total.getD 0)).sum ∧
    (computeStats today db).count.product = db.products.length ∧
    (computeStats today db).count.user = db.users.length ∧
    (computeStats today db).count.order = db.orders.length :=
  ⟨rfl, rfl, sumTotals_eq_sum _, sumTotals_eq_sum _,
   sumTotals_eq_sum db.orders, rfl, rfl, rfl⟩

/-! ### C9 -/

theorem exceptOk_promiseAll9 (f : FallibleQueries) :
    exceptOk (promiseAll9 f) = f.allOk := by
  simp only [promiseAll9, FallibleQueries.allOk, bind, Except.bind]
  cases f.thisMonthProducts with
  | error e => simp [exceptOk]
  | ok a =>
  cases f.lastMonthProducts with
  | error e => simp [exceptOk]
  | ok b =>
  cases f.thisMonthUsers with
  | error e => simp [exceptOk]
  | ok u1 =>
  cases f.lastMonthUsers with
  | error e => simp [exceptOk]
  | ok u2 =>
  cases f.thisMonthOrders with
  | error e => simp [exceptOk]
  | ok o1 =>
  cases f.lastMonthOrders with
  | error e => simp [exceptOk]
  | ok o2 =>
  cases f.totalProducts with
  | error e => simp [exceptOk]
  | ok tp =>
  cases f.totalUsers with
  | error e => simp [exceptOk]
  | ok tu =>
  cases f.allOrder with
  | error e => simp [exceptOk]
  | ok ao => simp [exceptOk, pure, Except.pure]

/-- C9: if any of the nine queries of the dashboard computation fails, the
whole computation aborts: the result is a data-source error (no partial or
degraded snapshot), the cache state is unchanged, and — since nothing was
cached — a later call against a healthy store re-runs the full computation
(nine-query fan-out and assembly). -/
theorem dashboard_query_failure_aborts (f : FallibleQueries) (c : CacheState)
    (hmiss : c.get "admin-stats" = none) (hfail : f.allOk = false) :
    (∃ e, handleGetDashboardStatsFallible f c = (.error e, c)) ∧
    (∀ (g : FallibleQueries) (q : QueryData), promiseAll9 g = .ok q →
      (handleGetDashboardStatsFallible g
        (handleGetDashboardStatsFallible f c).2).1 = .ok (assembleStats q)) := by
  have hok : exceptOk (promiseAll9 f) = false := by
    rw [exceptOk_promiseAll9, hfail]
  obtain ⟨e, he⟩ : ∃ e, promiseAll9 f = .error e := by
    cases h : promiseAll9 f with
    | error e => exact ⟨e, rfl⟩
    | ok q => rw [h] at hok; simp [exceptOk] at hok
  have hmain : handleGetDashboardStatsFallible f c = (.error e, c) := by
    unfold handleGetDashboardStatsFallible
    rw [show c.get "admin-stats" = none from hmiss, he]
  refine ⟨⟨e, hmain⟩, fun g q hg => ?_⟩
  rw [hmain]
  unfold handleGetDashboardStatsFallible
  rw [show c.get "admin-stats" = none from hmiss, hg]

/-- Nine queries of which one (the last-month orders query) rejects. -/
def oneFailingBatch : FallibleQueries :=
  ⟨.ok [], .ok [], .ok [], .ok [], .ok [], .error "store unavailable",
   .ok 0, .ok 0, .ok []⟩

theorem dashboard_query_failure_aborts_witness :
    (∃ e, handleGetDashboardStatsFallible oneFailingBatch CacheState.empty =
      (.error e, CacheState.empty)) :=
  (dashboard_query_failure_aborts oneFailingBatch CacheState.empty rfl rfl).1

/-! ### C10 -/

/-- C10: when the single-product path is called for an id matching no
product, it caches the serialized `null` under `product-<id>` and answers
404; a second call for the same id — even against a store that meanwhile
contains a product with that id — issues no query and is answered not-found
from the cache. -/
theorem singleProduct_caches_negative_result (id : String) (db db2 : DB)
    (c : CacheState) (hmiss : c.get ("product-" ++ id) = none)
    (habsent : db.products.find? (fun q => q._id = id) = none) :
    (handleGetSingleProduct id db c).status = 404 ∧
    (handleGetSingleProduct id db c).dbQueries = 1 ∧
    (handleGetSingleProduct id db c).cache.get ("product-" ++ id) =
      some (.prod none) ∧
    (handleGetSingleProduct id db2 (handleGetSingleProduct id db c).cache).dbQueries = 0 ∧
    (handleGetSingleProduct id db2 (handleGetSingleProduct id db c).cache).status = 404 ∧
    (handleGetSingleProduct id db2 (handleGetSingleProduct id db c).cache).payload = none := by
  have h1 : handleGetSingleProduct id db c =
      ⟨404, false, none, c.set ("product-" ++ id) (.prod none), 1⟩ := by
    unfold handleGetSingleProduct
    rw [show c.get ("product-" ++ id) = none from hmiss, habsent]
    rfl
  have h2 : (c.set ("product-" ++ id) (.prod none)).get ("product-" ++ id) =
      some (.prod none) := by
    simp [CacheState.set, CacheState.get]
  rw [h1]
  have h3 : handleGetSingleProduct id db2 (c.set ("product-" ++ id) (.prod none)) =
      ⟨404, false, none, c.set ("product-" ++ id) (.prod none), 0⟩ := by
    unfold handleGetSingleProduct
    rw [show (c.set ("product-" ++ id) (.prod none)).get ("product-" ++ id) =
      some (.prod none) from h2]
    rfl
  exact ⟨rfl, rfl, h2, by rw [h3], by rw [h3], by rw [h3]⟩

/-- A store that contains a product with the id `p1` (created "later"). -/
def dbWithP1 : DB :=
  ⟨[⟨"p1", "Gadget", "gadgets", 10, 3, none, ⟨2024, 2, 20, 0⟩⟩], [], []⟩

theorem singleProduct_caches_negative_result_witness :
    (handleGetSingleProduct "p1" ⟨[], [], []⟩ CacheState.empty).status = 404 ∧
    (handleGetSingleProduct "p1" ⟨[], [], []⟩ CacheState.empty).dbQueries = 1 ∧
    (handleGetSingleProduct "p1" ⟨[], [], []⟩ CacheState.empty).cache.get
      ("product-" ++ "p1") = some (.prod none) ∧
    (handleGetSingleProduct "p1" dbWithP1
      (handleGetSingleProduct "p1" ⟨[], [], []⟩ CacheState.empty).cache).dbQueries = 0 ∧
    (handleGetSingleProduct "p1" dbWithP1
      (handleGetSingleProduct "p1" ⟨[], [], []⟩ CacheState.empty).cache).status = 404 ∧
    (handleGetSingleProduct "p1" dbWithP1
      (handleGetSingleProduct "p1" ⟨[], [], []⟩ CacheState.empty).cache).payload = none :=
  singleProduct_caches_negative_result "p1" ⟨[], [], []⟩ dbWithP1
    CacheState.empty rfl rfl

/-! ### C7 -/

theorem normYM_of_lt (y : Int) (m : Nat) (hm : m < 12) :
    normYM y (m : Int) = (y, m) := by
  unfold normYM
  rw [Int.ediv_eq_zero_of_lt (by omega) (by omega : (m : Int) < 12),
    Int.emod_eq_of_lt (by omega) (by omega : (m : Int) < 12)]
  simp

/-- The calendar month preceding the month of `today`. -/
def prevYM (today : Instant) : Int × Nat :=
  if today.month = 0 then (today.year - 1, 11) else (today.year, today.month - 1)

theorem normYM_prev (y : Int) (m : Nat) (hm : m < 12) :
    normYM y ((m : Int) - 1) = if m = 0 then (y - 1, 11) else (y, m - 1) := by
  unfold normYM
  by_cases h : m = 0
  · subst h
    have h1 : ((0 : Nat) : Int) - 1 = -1 := by norm_num
    rw [h1, if_pos rfl]
    have h2 : (-1 : Int) / 12 = -1 := by decide
    have h3 : (-1 : Int) % 12 = 11 := by decide
    rw [h2, h3]
    simp [Prod.ext_iff]
    omega
  · rw [Int.ediv_eq_zero_of_lt (by omega) (by omega : (m : Int) - 1 < 12),
      Int.emod_eq_of_lt (by omega) (by omega : (m : Int) - 1 < 12), if_neg h]
    simp [Prod.ext_iff]

theorem mkDate_prev_one (y : Int) (m : Nat) (hm : m < 12) :
    mkDate y ((m : Int) - 1) 1 =
      if m = 0 then ⟨y - 1, 11, 1, 0⟩ else ⟨y, m - 1, 1, 0⟩ := by
  unfold mkDate
  rw [normYM_prev y m hm]
  by_cases h : m = 0 <;> simp [h]

theorem mkDate_zero (y : Int) (m : Nat) (hm : m < 12) :
    mkDate y (m : Int) 0 =
      if m = 0 then ⟨y - 1, 11, daysInMonth (y - 1) 11, 0⟩
      else ⟨y, m - 1, daysInMonth y (m - 1), 0⟩ := by
  unfold mkDate
  rw [normYM_of_lt y m hm]
  dsimp only
  rw [normYM_prev y m hm]
  by_cases h : m = 0 <;> simp [h]

theorem thisMonthWindow_eq (today : Instant) (hm : today.month < 12) :
    thisMonthWindow today = ⟨⟨today.year, today.month, 1, 0⟩, today⟩ := by
  unfold thisMonthWindow mkDate
  rw [normYM_of_lt today.year today.month hm]
  norm_num

theorem lastMonthWindow_eq (today : Instant) (hm : today.month < 12) :
    lastMonthWindow today =
      ⟨⟨(prevYM today).1, (prevYM today).2, 1, 0⟩,
       ⟨(prevYM today).1, (prevYM today).2,
        daysInMonth (prevYM today).1 (prevYM today).2, 0⟩⟩ := by
  unfold lastMonthWindow prevYM
  rw [mkDate_prev_one today.year today.month hm,
    mkDate_zero today.year today.month hm]
  by_cases h : today.month = 0 <;> simp [h]

theorem mem_insertDesc (p q : ProductDoc) (l : List ProductDoc) :
    q ∈ insertDesc p l ↔ q = p ∨ q ∈ l := by
  induction l with
  | nil => simp [insertDesc]
  | cons a as ih =>
      unfold insertDesc
      by_cases h : Instant.le a.createdAt p.createdAt = true
      · simp [h]
      · simp [h, ih]
        tauto

theorem mem_sortDesc (q : ProductDoc) (l : List ProductDoc) :
    q ∈ sortDesc l ↔ q ∈ l := by
  unfold sortDesc
  induction l with
  | nil => simp
  | cons a as ih => simp [List.foldr_cons, mem_insertDesc, ih]

/-- `t` falls within the calendar month preceding the month of `today`:
its year-month is the previous year-month, its day exists in that month, and
its time-of-day is within the day. -/
def inPrevCalendarMonth (today t : Instant) : Bool :=
  (if today.month = 0
    then t.year == today.year - 1 && t.month == 11
    else t.year == today.year && t.month + 1 == today.month) &&
  decide (1 ≤ t.day) && decide (t.day ≤ daysInMonth t.year t.month) &&
  decide (t.ms < 86400000)

/-- A "now" of March 15 2024, noon. -/
def todayC7 : Instant := ⟨2024, 2, 15, 43200000⟩

/-- An order created February 29 2024 at noon — during the final day of the
previous month relative to `todayC7`. -/
def orderC7 : OrderDoc := ⟨"o1", some 10, ⟨2024, 1, 29, 43200000⟩⟩

/-- A product created exactly at the first instant of the current month. -/
def productC7 : ProductDoc := ⟨"p2", "Widget", "widgets", 5, 2, none, ⟨2024, 2, 1, 0⟩⟩

/-- A user created exactly at the first instant of the current month. -/
def userC7 : UserDoc := ⟨"u2", "Bob", "bob@example.com", ⟨2024, 2, 1, 0⟩⟩

/-- A store holding exactly the three documents above. -/
def dbC7 : DB := ⟨[productC7], [userC7], [orderC7]⟩

/-- C7 counterexample: the order from noon of the final day of the previous
month is excluded from the last-month orders (the code's `lastMonth.end`,
`new Date(y, m, 0)`, is midnight at the start of that day, not the last
instant of the month), and the window boundaries are not uniform: a product
and a user created at the same instant — exactly `thisMonth.start` — are
treated differently (`$gt` for products excludes it, `$gte` for users
includes it). -/
theorem dashboard_windows_counterexample :
    (inPrevCalendarMonth todayC7 orderC7.createdAt = true ∧
     (statsQueries todayC7 dbC7).lastMonthOrders = []) ∧
    (productC7.createdAt = (thisMonthWindow todayC7).start ∧
     userC7.createdAt = (thisMonthWindow todayC7).start ∧
     (statsQueries todayC7 dbC7).thisMonthProducts = [] ∧
     (statsQueries todayC7 dbC7).thisMonthUsers = [userC7]) := by
  refine ⟨⟨by decide, by decide⟩, by decide, by decide, by decide, by decide⟩

/-- C7 amended: `thisMonth` runs from the first instant of the current month
to now, and `lastMonth` from the first instant of the previous month to
midnight at the start of the last day of the previous month (not its last
instant); an order or user is counted in a window iff its creation instant
lies within the window's inclusive bounds, whereas products use an exclusive
lower bound — so the conventions are not uniform across entity kinds, and
later times on the final day of the previous month are not counted. -/
theorem dashboard_time_windows (today : Instant) (hm : today.month < 12) :
    thisMonthWindow today = ⟨⟨today.year, today.month, 1, 0⟩, today⟩ ∧
    lastMonthWindow today =
      ⟨⟨(prevYM today).1, (prevYM today).2, 1, 0⟩,
       ⟨(prevYM today).1, (prevYM today).2,
        daysInMonth (prevYM today).1 (prevYM today).2, 0⟩⟩ ∧
    (∀ (db : DB) (o : OrderDoc),
      o ∈ (statsQueries today db).lastMonthOrders ↔
        o ∈ db.orders ∧
        Instant.le (lastMonthWindow today).start o.createdAt = true ∧
        Instant.le o.createdAt (lastMonthWindow today).stop = true) ∧
    (∀ (db : DB) (p : ProductDoc),
      p ∈ (statsQueries today db).lastMonthProducts ↔
        p ∈ db.products ∧
        Instant.lt (lastMonthWindow today).start p.createdAt = true ∧
        Instant.le p.createdAt (lastMonthWindow today).stop = true) ∧
    (∀ (db : DB) (u : UserDoc),
      u ∈ (statsQueries today db).thisMonthUsers ↔
        u ∈ db.users ∧
        Instant.le (thisMonthWindow today).start u.createdAt = true ∧
        Instant.le u.createdAt (thisMonthWindow today).stop = true) := by
  refine ⟨thisMonthWindow_eq today hm, lastMonthWindow_eq today hm, ?_, ?_, ?_⟩
  · intro db o
    simp [statsQueries, ordersInWindow, List.mem_filter]
  · intro db p
    simp [statsQueries, productsInWindow, mem_sortDesc, List.mem_filter]
  · intro db u
    simp [statsQueries, usersInWindow, List.mem_filter]

theorem dashboard_time_windows_witness :
    thisMonthWindow todayC7 = ⟨⟨todayC7.year, todayC7.month, 1, 0⟩, todayC7⟩ ∧
    (orderC7 ∈ (statsQueries todayC7 dbC7).lastMonthOrders ↔
      orderC7 ∈ dbC7.orders ∧
      Instant.le (lastMonthWindow todayC7).start orderC7.createdAt = true ∧
      Instant.le orderC7.createdAt (lastMonthWindow todayC7).stop = true) :=
  ⟨(dashboard_time_windows todayC7 (by decide)).1,
   (dashboard_time_windows todayC7 (by decide)).2.2.1 dbC7 orderC7⟩

end Ecom
